import Mathlib

/-!
Verification of `pg_control_editor` (src/pg_control_editor.c) against its
natural-language specification.

The program performs one decode → override → encode → persist cycle on a
PostgreSQL control file.  The shallow embedding below models:

* the `ControlFileData` record (the fields the program reads or writes,
  with one `rest` field standing for all remaining bytes that the program
  carries through unchanged; the `crc` field is last, mirroring the C
  struct where `crc` is declared last and covers all preceding bytes);
* `read_controlfile` (decode with CRC and version checks);
* `update_controlfile` (encode: recompute CRC, write fixed-size image);
* the option validation performed in `main`'s `getopt` loop and the
  override application sequence in `main` after the control file is read;
* `make_datadir_out_if_not_exists` plus the final write, over a small
  model of the output-directory filesystem state.

Machine integers are modelled as `Nat`; `uint32` truncation is written as
`% 2 ^ 32` exactly where the C performs it through its types.  Values held
in the program's option variables (`set_xid`, `set_xid_epoch`, ...) are the
post-`strtoul` contents of those `uint32`/`uint64` variables.
-/

namespace PgControlEditor

/-! ## Constants from the PostgreSQL headers used by pg_control_editor.c -/

/-- `PG_CONTROL_VERSION` from `catalog/pg_control.h` (format tag of the
targeted server branch; the proofs depend only on equality with it). -/
def PG_CONTROL_VERSION : Nat := 1300

/-- `PG_CONTROL_FILE_SIZE` from `catalog/pg_control.h`: the control file is
stored zero-padded to this size. -/
def PG_CONTROL_FILE_SIZE : Nat := 8192

/-- `sizeof(ControlFileData)` on the reference platform; the proofs depend
only on comparisons of the read length with it, and on it being at most
`PG_CONTROL_FILE_SIZE`. -/
def sizeofControlFileData : Nat := 296

/-- `InvalidTransactionId` from `access/transam.h`. -/
def InvalidTransactionId : Nat := 0

/-- `FirstNormalTransactionId` from `access/transam.h`. -/
def FirstNormalTransactionId : Nat := 3

/-- `TransactionIdIsNormal(xid)` from `access/transam.h`:
`(xid) >= FirstNormalTransactionId`. -/
def TransactionIdIsNormal (xid : Nat) : Prop :=
  FirstNormalTransactionId ≤ xid

instance (xid : Nat) : Decidable (TransactionIdIsNormal xid) := by
  unfold TransactionIdIsNormal
  infer_instance

/-- `InvalidOid` from `postgres_ext.h`. -/
def InvalidOid : Nat := 0

/-- `FirstMultiXactId` from `access/multixact.h` (`(MultiXactId) 1`). -/
def FirstMultiXactId : Nat := 1

/-- `(uint32) -1` / `(MultiXactOffset) -1`: the all-ones 32-bit value used
as "unset" sentinel for `set_xid_epoch` and `set_mxoff`. -/
def UINT32_MAX : Nat := 2 ^ 32 - 1

/-- `XLOG_FNAME_LEN` from `access/xlog_internal.h`. -/
def XLOG_FNAME_LEN : Nat := 24

/-- `WalSegMinSize` from `access/xlog_internal.h`: 1 MiB. -/
def WalSegMinSize : Nat := 1024 * 1024

/-- `WalSegMaxSize` from `access/xlog_internal.h`: 1 GiB. -/
def WalSegMaxSize : Nat := 1024 * 1024 * 1024

/-- `IsPowerOf2(size)` from `access/xlog_internal.h`:
`(size != 0 && ((size) & ((size)-1)) == 0)`. -/
def IsPowerOf2 (n : Nat) : Prop :=
  n ≠ 0 ∧ n &&& (n - 1) = 0

instance (n : Nat) : Decidable (IsPowerOf2 n) := by
  unfold IsPowerOf2
  infer_instance

/-- `IsValidWalSegSize(size)` from `access/xlog_internal.h`:
`IsPowerOf2(size) && size >= WalSegMinSize && size <= WalSegMaxSize`. -/
def IsValidWalSegSize (n : Nat) : Prop :=
  IsPowerOf2 n ∧ WalSegMinSize ≤ n ∧ n ≤ WalSegMaxSize

instance (n : Nat) : Decidable (IsValidWalSegSize n) := by
  unfold IsValidWalSegSize
  infer_instance

/-- `EpochFromFullTransactionId(x)` from `access/transam.h`:
`(uint32) ((x).value >> 32)`. -/
def EpochFromFullTransactionId (x : Nat) : Nat :=
  (x >>> 32) % 2 ^ 32

/-- `XidFromFullTransactionId(x)` from `access/transam.h`:
`(uint32) ((x).value)`. -/
def XidFromFullTransactionId (x : Nat) : Nat :=
  x % 2 ^ 32

/-- `FullTransactionIdFromEpochAndXid(epoch, xid)` from `access/transam.h`:
`((uint64) epoch) << 32 | xid`, with both parameters of 32-bit type. -/
def FullTransactionIdFromEpochAndXid (epoch xid : Nat) : Nat :=
  ((epoch % 2 ^ 32) <<< 32) ||| (xid % 2 ^ 32)

/-! ## The control record -/

/-- The fields of the C `CheckPoint` struct (`catalog/pg_control.h`) that
`pg_control_editor.c` reads or writes, in declaration order; `rest` stands
for all remaining `CheckPoint` bytes, which the program never touches. -/
structure CheckPoint where
  ThisTimeLineID : Nat
  PrevTimeLineID : Nat
  nextXid : Nat
  nextOid : Nat
  nextMulti : Nat
  nextMultiOffset : Nat
  oldestXid : Nat
  oldestXidDB : Nat
  oldestMulti : Nat
  oldestMultiDB : Nat
  oldestCommitTsXid : Nat
  newestCommitTsXid : Nat
  rest : Nat
deriving DecidableEq

/-- The fields of the C `ControlFileData` struct (`catalog/pg_control.h`)
that `pg_control_editor.c` reads or writes; `rest` stands for all other
bytes preceding `crc`, which the program carries through unchanged.  As in
the C struct, `crc` is the last field and the CRC covers every field
before it. -/
structure ControlFileData where
  pg_control_version : Nat
  checkPointCopy : CheckPoint
  xlog_seg_size : Nat
  rest : Nat
  crc : Nat
deriving DecidableEq

/-- Modelled from the spec: the checksum is "a 32-bit CRC variant" from
PostgreSQL's port library (not part of this repository), computed "over
every byte preceding the checksum field itself", i.e. over every field of
`ControlFileData` except `crc`.  It is abstracted here as a fixed mixing
function of exactly those fields; no claim depends on the concrete CRC
polynomial, only on the covered byte range. -/
def comp_crc32c (d : ControlFileData) : Nat :=
  (d.pg_control_version
    + 3 * d.checkPointCopy.ThisTimeLineID
    + 5 * d.checkPointCopy.PrevTimeLineID
    + 7 * d.checkPointCopy.nextXid
    + 11 * d.checkPointCopy.nextOid
    + 13 * d.checkPointCopy.nextMulti
    + 17 * d.checkPointCopy.nextMultiOffset
    + 19 * d.checkPointCopy.oldestXid
    + 23 * d.checkPointCopy.oldestXidDB
    + 29 * d.checkPointCopy.oldestMulti
    + 31 * d.checkPointCopy.oldestMultiDB
    + 37 * d.checkPointCopy.oldestCommitTsXid
    + 41 * d.checkPointCopy.newestCommitTsXid
    + 43 * d.checkPointCopy.rest
    + 47 * d.xlog_seg_size
    + 53 * d.rest
    + 1) % 2 ^ 32

/-- A control file on disk: `len` is the number of bytes `read` returns,
`data` is the interpretation of the struct-sized prefix of the buffer (as
produced by the C casts `(ControlFileData *) buffer` and the `memcpy`). -/
structure FileImage where
  len : Nat
  data : ControlFileData
deriving DecidableEq

/-! ## Decode: read_controlfile -/

/-- The two failure shapes of `read_controlfile` (the spec's
`DecodeError`): the `len`/`pg_control_version` check failing ("broken or
wrong version", `UnsupportedOrCorrupt`) and the WAL segment size check
failing (`InvalidSegmentSize`).  The C function reports both by returning
`false` after logging which case occurred. -/
inductive DecodeError where
  | UnsupportedOrCorrupt : DecodeError
  | InvalidSegmentSize : DecodeError
deriving DecidableEq

/-- A successful decode: the in-memory `ControlFile` copied from the
buffer, and the `guessed` flag (set exactly on CRC mismatch, after which
the C code only warns and proceeds). -/
structure DecodeResult where
  record : ControlFileData
  guessed : Bool
deriving DecidableEq

/-- `read_controlfile` (src/pg_control_editor.c lines 341-412), on the
bytes read from the input file: require `len >= sizeof(ControlFileData)`
and `pg_control_version == PG_CONTROL_VERSION`; compare the CRC computed
over the bytes before `crc` with the stored `crc`, setting `guessed` (and
warning) on mismatch without failing; `memcpy` the buffer into
`ControlFile`; finally fail if `xlog_seg_size` is not a valid WAL segment
size. -/
def read_controlfile (img : FileImage) : Except DecodeError DecodeResult :=
  if sizeofControlFileData ≤ img.len ∧
      img.data.pg_control_version = PG_CONTROL_VERSION then
    let guessed : Bool := decide (comp_crc32c img.data ≠ img.data.crc)
    if IsValidWalSegSize img.data.xlog_seg_size then
      Except.ok ⟨img.data, guessed⟩
    else
      Except.error DecodeError.InvalidSegmentSize
  else
    Except.error DecodeError.UnsupportedOrCorrupt

/-! ## Encode: update_controlfile -/

/-- Modelled from the spec: `update_controlfile` (PostgreSQL
`common/controldata_utils.c`, not part of this repository) "re-encodes
with a freshly computed checksum", i.e. recomputes the CRC over the same
byte range used at decode time, stores it in the `crc` field, and writes
the full `PG_CONTROL_FILE_SIZE` image in one operation. -/
def update_controlfile (d : ControlFileData) : FileImage :=
  ⟨PG_CONTROL_FILE_SIZE, { d with crc := comp_crc32c d }⟩

/-! ## Option validation (the `getopt` loop of `main`)

Each function below is the value-level content of one `case` arm of the
option loop (src/pg_control_editor.c lines 85-250): the check the arm
performs on the already-converted numeric value, and the fatal error it
raises.  String-to-number conversion (`strtoul`) is below the level of
this model; the argument of each function is the post-conversion content
of the corresponding C variable.  Error names follow the spec's taxonomy
for the corresponding `pg_fatal` calls. -/

/-- Validation failures of the option arms (each a `pg_fatal`/`exit(1)`
before the control file is read), named as in the spec. -/
inductive OptError where
  | InvalidOid : OptError
  | InvalidTransactionId : OptError
  | InvalidMultiTransactionId : OptError
  | InvalidOffset : OptError
  | InvalidEpoch : OptError
  | InvalidFormat : OptError
  | InvalidSegmentSize : OptError
  | InvalidArgument : OptError
deriving DecidableEq

/-- Case `'o'` (lines 97-108): reject 0. -/
def parse_oid_option (v : Nat) : Except OptError Nat :=
  if v = 0 then Except.error OptError.InvalidOid else Except.ok v

/-- Case `'x'` (lines 110-121): reject non-normal transaction ids. -/
def parse_xid_option (v : Nat) : Except OptError Nat :=
  if TransactionIdIsNormal v then Except.ok v
  else Except.error OptError.InvalidTransactionId

/-- Case `'m'` (lines 123-149): reject 0 for either the next or the
oldest multitransaction id. -/
def parse_multixact_option (next oldest : Nat) : Except OptError (Nat × Nat) :=
  if next = 0 then Except.error OptError.InvalidMultiTransactionId
  else if oldest = 0 then Except.error OptError.InvalidMultiTransactionId
  else Except.ok (next, oldest)

/-- Case `'O'` (lines 151-162): reject `(MultiXactOffset) -1`. -/
def parse_mxoff_option (v : Nat) : Except OptError Nat :=
  if v = UINT32_MAX then Except.error OptError.InvalidOffset else Except.ok v

/-- Case `'c'` (lines 164-188): each of the two values must be 0
(`InvalidTransactionId` in the C sense, i.e. "no change") or a normal
transaction id. -/
def parse_commit_ts_option (oldest newest : Nat) : Except OptError (Nat × Nat) :=
  if oldest < FirstNormalTransactionId ∧ oldest ≠ InvalidTransactionId then
    Except.error OptError.InvalidTransactionId
  else if newest < FirstNormalTransactionId ∧ newest ≠ InvalidTransactionId then
    Except.error OptError.InvalidTransactionId
  else Except.ok (oldest, newest)

/-- Case `'e'` (lines 190-203): reject `(uint32) -1`. -/
def parse_epoch_option (v : Nat) : Except OptError Nat :=
  if v = UINT32_MAX then Except.error OptError.InvalidEpoch else Except.ok v

/-- The character set literal of the `strspn` call on line 206:
`"01234567890ABCDEFabcdef"`. -/
def xlog_fname_chars : List Char := "01234567890ABCDEFabcdef".toList

/-- C `strspn`: the length of the longest initial segment of the string
consisting entirely of characters from `accept`. -/
def strspn (accept : List Char) : List Char → Nat
  | [] => 0
  | c :: cs => if c ∈ accept then 1 + strspn accept cs else 0

/-- Case `'l'` (lines 205-218): accept the filename iff
`strspn(optarg, "01234567890ABCDEFabcdef") == XLOG_FNAME_LEN`; the
resolution itself (`XLogFromFileName`) is deferred until the effective
WAL segment size is known. -/
def parse_walfile_option (fname : List Char) : Except OptError (List Char) :=
  if strspn xlog_fname_chars fname = XLOG_FNAME_LEN then Except.ok fname
  else Except.error OptError.InvalidFormat

/-- Case `'u'` (lines 220-231): reject non-normal transaction ids. -/
def parse_oldest_xid_option (v : Nat) : Except OptError Nat :=
  if TransactionIdIsNormal v then Except.ok v
  else Except.error OptError.InvalidTransactionId

/-- Case `1` / `--wal-segsize` (lines 233-243): `option_parse_int` bounds
the megabyte count to `[1, 1024]`, the value is scaled to bytes, and
`IsValidWalSegSize` (power of two) is enforced. -/
def parse_wal_segsize_option (mb : Nat) : Except OptError Nat :=
  if 1 ≤ mb ∧ mb ≤ 1024 then
    if IsValidWalSegSize (mb * 1024 * 1024) then Except.ok (mb * 1024 * 1024)
    else Except.error OptError.InvalidSegmentSize
  else Except.error OptError.InvalidArgument

/-! ## WAL segment filename resolution -/

/-- Numeric value of one hexadecimal character (total on `Char`; only
reached on characters accepted by the `strspn` check). -/
def hexDigitValue (c : Char) : Nat :=
  if '0' ≤ c ∧ c ≤ '9' then c.toNat - '0'.toNat
  else if 'A' ≤ c ∧ c ≤ 'F' then c.toNat - 'A'.toNat + 10
  else if 'a' ≤ c ∧ c ≤ 'f' then c.toNat - 'a'.toNat + 10
  else 0

/-- Value of a run of hexadecimal characters, as read by one `sscanf`
`%08X` conversion. -/
def hexValue (cs : List Char) : Nat :=
  cs.foldl (fun a c => 16 * a + hexDigitValue c) 0

/-- `XLogSegmentsPerXLogId(wal_segsz_bytes)` from
`access/xlog_internal.h`: `0x100000000 / wal_segsz_bytes`. -/
def XLogSegmentsPerXLogId (walSegSz : Nat) : Nat :=
  2 ^ 32 / walSegSz

/-- `XLogFromFileName` from `access/xlog_internal.h`:
`sscanf(fname, "%08X%08X%08X", &tli, &log, &seg)` followed by
`*logSegNo = (uint64) log * XLogSegmentsPerXLogId(wal_segsz_bytes) + seg`.
Returns the (timeline, segment number) pair. -/
def XLogFromFileName (fname : List Char) (walSegSz : Nat) : Nat × Nat :=
  let tli := hexValue (fname.take 8)
  let log := hexValue ((fname.drop 8).take 8)
  let seg := hexValue ((fname.drop 16).take 8)
  (tli, log * XLogSegmentsPerXLogId walSegSz + seg)

/-! ## The override application sequence of `main` (lines 283-326)

Each `set_..._action` is the body of one override statement of `main`,
acting on the in-memory working copy.  The surrounding presence tests
(`set_xid != 0`, `set_xid_epoch != -1`, ...) appear in
`applyOverridesMain`, exactly in `main`'s statement order. -/

/-- Lines 286-289: replace the xid half of `nextXid`, preserving the
epoch half. -/
def set_next_xid_action (xid : Nat) (cp : CheckPoint) : CheckPoint :=
  { cp with nextXid := (FullTransactionIdFromEpochAndXid
      (EpochFromFullTransactionId cp.nextXid) xid) }

/-- Lines 314-317: replace the epoch half of `nextXid`, preserving the
xid half. -/
def set_epoch_action (epoch : Nat) (cp : CheckPoint) : CheckPoint :=
  { cp with nextXid := (FullTransactionIdFromEpochAndXid
      epoch (XidFromFullTransactionId cp.nextXid)) }

/-- Lines 290-298: set `nextMulti`; set `oldestMulti`, adding
`FirstMultiXactId` if the stored value would fall below it; reset
`oldestMultiDB` to `InvalidOid`. -/
def set_multixact_action (next oldest : Nat) (cp : CheckPoint) : CheckPoint :=
  let cp := { cp with nextMulti := next }
  let cp := { cp with oldestMulti := oldest }
  let cp :=
    if cp.oldestMulti < FirstMultiXactId then
      { cp with oldestMulti := cp.oldestMulti + FirstMultiXactId }
    else cp
  { cp with oldestMultiDB := InvalidOid }

/-- Lines 303-307: if the resolved timeline exceeds the current
`ThisTimeLineID`, set both timeline fields to it; otherwise no change. -/
def bump_timeline_action (minXlogTli : Nat) (cp : CheckPoint) : CheckPoint :=
  if minXlogTli > cp.ThisTimeLineID then
    { cp with ThisTimeLineID := minXlogTli, PrevTimeLineID := minXlogTli }
  else cp

/-- Lines 309-312: each commit-timestamp bound is replaced only when the
supplied value is nonzero (the usage text: "zero means no change"). -/
def set_commit_ts_action (oldest newest : Nat) (cp : CheckPoint) : CheckPoint :=
  let cp := if oldest ≠ 0 then { cp with oldestCommitTsXid := oldest } else cp
  let cp := if newest ≠ 0 then { cp with newestCommitTsXid := newest } else cp
  cp

/-- Lines 319-323: set `oldestXid` and reset `oldestXidDB`. -/
def set_oldest_xid_action (xid : Nat) (cp : CheckPoint) : CheckPoint :=
  { cp with oldestXid := xid, oldestXidDB := InvalidOid }

/-- The post-parse contents of `main`'s override variables, encoded as in
the C: 0 means "not supplied" for the fields whose option rejects 0, the
all-ones value means "not supplied" for `set_mxoff` and `set_xid_epoch`,
and `log_fname` is `NULL` or the (already length-checked) filename. -/
structure Overrides where
  set_oid : Nat
  set_xid : Nat
  set_mxid : Nat
  set_oldestmxid : Nat
  set_mxoff : Nat
  set_oldest_commit_ts_xid : Nat
  set_newest_commit_ts_xid : Nat
  set_xid_epoch : Nat
  set_oldest_xid : Nat
  set_wal_segsize : Nat
  log_fname : Option (List Char)
deriving DecidableEq

/-- The `checkPointCopy` part of `main`'s override statements (lines
283-323), applied in source order; every one of these statements reads
and writes only `ControlFile.checkPointCopy`.  `minXlogTli` is the
timeline resolved from `log_fname` (0 when no WAL filename was
requested, as at its declaration on line 42). -/
def applyCpOverrides (ov : Overrides) (minXlogTli : Nat)
    (cp : CheckPoint) : CheckPoint :=
  let cp := if ov.set_oid ≠ 0 then { cp with nextOid := ov.set_oid } else cp
  let cp := if ov.set_xid ≠ 0 then set_next_xid_action ov.set_xid cp else cp
  let cp := if ov.set_mxid ≠ 0 then
      set_multixact_action ov.set_mxid ov.set_oldestmxid cp else cp
  let cp := if ov.set_mxoff ≠ UINT32_MAX then
      { cp with nextMultiOffset := ov.set_mxoff } else cp
  let cp := bump_timeline_action minXlogTli cp
  let cp := set_commit_ts_action ov.set_oldest_commit_ts_xid
      ov.set_newest_commit_ts_xid cp
  let cp := if ov.set_xid_epoch ≠ UINT32_MAX then
      set_epoch_action ov.set_xid_epoch cp else cp
  let cp := if ov.set_oldest_xid ≠ 0 then
      set_oldest_xid_action ov.set_oldest_xid cp else cp
  cp

/-- Lines 283-326 of `main`: the override statements applied to the
working copy.  Their net effect on `ControlFile` is the checkpoint-level
pass above plus the final `xlog_seg_size` update of lines 325-326 (where
`WalSegSz` equals `set_wal_segsize`, the guard having established
`set_wal_segsize != 0`); no other field is read or written. -/
def applyOverridesMain (ov : Overrides) (minXlogTli : Nat)
    (cf : ControlFileData) : ControlFileData :=
  { cf with checkPointCopy := applyCpOverrides ov minXlogTli cf.checkPointCopy,
            xlog_seg_size := (if ov.set_wal_segsize ≠ 0 then ov.set_wal_segsize
              else cf.xlog_seg_size) }

/-! ## The full invocation -/

/-- One command-line invocation, abstracted from flag spellings: for each
option, whether it was supplied and with which (already numeric)
value(s). -/
structure RawOptions where
  oid : Option Nat
  xid : Option Nat
  mxid : Option (Nat × Nat)
  mxoff : Option Nat
  commit_ts : Option (Nat × Nat)
  epoch : Option Nat
  walfile : Option (List Char)
  oldest_xid : Option Nat
  wal_segsize_mb : Option Nat
deriving DecidableEq

/-- Run one option arm: an absent option leaves the variable's initial
value, a supplied one is validated (fatally on failure) and stored. -/
def parseOpt {α β : Type} (raw : Option α) (dflt : β)
    (arm : α → Except OptError β) : Except OptError β :=
  match raw with
  | Option.none => Except.ok dflt
  | Option.some v => arm v

/-- The whole option loop: every supplied option is validated as in its
`case` arm (a validation failure is fatal, as each arm's `pg_fatal`) and
the `Overrides` state is built up; an absent option leaves its variable's
initial "not supplied" value.  The C processes options in command-line
order; a fixed order is used here (it only determines which of several
bad options is reported first). -/
def parseOptions (raw : RawOptions) : Except OptError Overrides :=
  match parseOpt raw.oid 0 parse_oid_option with
  | Except.error e => Except.error e
  | Except.ok oid =>
  match parseOpt raw.xid 0 parse_xid_option with
  | Except.error e => Except.error e
  | Except.ok xid =>
  match parseOpt raw.mxid (0, 0) (fun p => parse_multixact_option p.1 p.2) with
  | Except.error e => Except.error e
  | Except.ok mxids =>
  match parseOpt raw.mxoff UINT32_MAX parse_mxoff_option with
  | Except.error e => Except.error e
  | Except.ok mxoff =>
  match parseOpt raw.commit_ts (0, 0) (fun p => parse_commit_ts_option p.1 p.2) with
  | Except.error e => Except.error e
  | Except.ok cts =>
  match parseOpt raw.epoch UINT32_MAX parse_epoch_option with
  | Except.error e => Except.error e
  | Except.ok epoch =>
  match parseOpt raw.walfile Option.none
      (fun f => (parse_walfile_option f).map Option.some) with
  | Except.error e => Except.error e
  | Except.ok fname =>
  match parseOpt raw.oldest_xid 0 parse_oldest_xid_option with
  | Except.error e => Except.error e
  | Except.ok oxid =>
  match parseOpt raw.wal_segsize_mb 0 parse_wal_segsize_option with
  | Except.error e => Except.error e
  | Except.ok segsz =>
  Except.ok ⟨oid, xid, mxids.1, mxids.2, mxoff, cts.1, cts.2, epoch, oxid, segsz, fname⟩

/-- The failures of `main` visible in this model: a fatal option
validation error (before the control file is read) or a decode failure
(`read_controlfile` returning false). -/
inductive MainError where
  | optionError (e : OptError) : MainError
  | readError (e : DecodeError) : MainError
deriving DecidableEq

/-- `main` after argument handling (src/pg_control_editor.c lines
268-331): read the control file; compute the effective `WalSegSz`
(explicit override takes precedence, line 275-278); resolve the WAL
filename if one was given (line 280-281); apply the overrides; re-encode
with a fresh CRC.  Returns the encoded output image together with the
`guessed` flag (which only drives a warning).  The filesystem write is
modelled separately. -/
def runMain (raw : RawOptions) (img : FileImage) :
    Except MainError (FileImage × Bool) :=
  match parseOptions raw with
  | Except.error e => Except.error (MainError.optionError e)
  | Except.ok ov =>
    match read_controlfile img with
    | Except.error e => Except.error (MainError.readError e)
    | Except.ok res =>
      let WalSegSz := if ov.set_wal_segsize ≠ 0 then ov.set_wal_segsize
                      else res.record.xlog_seg_size
      let minXlogTli := match ov.log_fname with
        | Option.some fname => (XLogFromFileName fname WalSegSz).fst
        | Option.none => 0
      Except.ok (update_controlfile (applyOverridesMain ov minXlogTli res.record),
                 res.guessed)

/-! ## The output filesystem (Directory Materializer) -/

/-- Content of the output control-file path: a freshly created, still
empty file (the `O_CREAT` of `make_datadir_out_if_not_exists`) or a
written image. -/
inductive FileContent where
  | empty : FileContent
  | image (img : FileImage) : FileContent
deriving DecidableEq

/-- The output-directory filesystem state visible to the program: whether
the output directory and its `global` subdirectory exist, the content of
`<out>/global/pg_control` if that file exists, and the log of the write
operations performed on it. -/
structure OutFS where
  dirOut : Bool
  globalDir : Bool
  ctl : Option FileContent
  writes : List FileImage
deriving DecidableEq

/-- `make_datadir_out_if_not_exists` (src/pg_control_editor.c lines
415-449): `mkdir` the output directory and its `global` subdirectory,
treating `EEXIST` as success; then `open(..., O_EXCL | O_CREAT, 0644)`
the control-file path, treating `EEXIST` as success and leaving a
pre-existing file's content in place.  Filesystem faults other than
`EEXIST` abort the process and are outside this model. -/
def make_datadir_out_if_not_exists (fs : OutFS) : OutFS :=
  let fs := { fs with dirOut := true }
  let fs := { fs with globalDir := true }
  match fs.ctl with
  | Option.some _ => fs
  | Option.none => { fs with ctl := Option.some FileContent.empty }

/-- Modelled from the spec: the persisting write of `update_controlfile`
(PostgreSQL common code, not part of this repository) opens the
control-file path for writing (`O_WRONLY`, without `O_EXCL` or `O_CREAT`
in frontend builds) and "writes the full encoded payload in one
operation", replacing the file's previous content. -/
def write_controlfile (fs : OutFS) (d : ControlFileData) : OutFS :=
  { fs with ctl := Option.some (FileContent.image (update_controlfile d)),
            writes := fs.writes ++ [update_controlfile d] }

/-- Lines 328-330 of `main`: the materialization step,
`make_datadir_out_if_not_exists(DataDirOut)` followed by
`update_controlfile(DataDirOut, &ControlFile, false)`. -/
def materialize (fs : OutFS) (d : ControlFileData) : OutFS :=
  write_controlfile (make_datadir_out_if_not_exists fs) d

/-- Equality of `Except` results is decidable (used to evaluate the
model on concrete inputs). -/
instance {ε α : Type} [DecidableEq ε] [DecidableEq α] :
    DecidableEq (Except ε α) := fun a b =>
  match a, b with
  | Except.error e, Except.error f =>
    if h : e = f then Decidable.isTrue (by rw [h])
    else Decidable.isFalse (fun hh => h (by injection hh))
  | Except.error _, Except.ok _ => Decidable.isFalse (fun hh => Except.noConfusion hh)
  | Except.ok _, Except.error _ => Decidable.isFalse (fun hh => Except.noConfusion hh)
  | Except.ok x, Except.ok y =>
    if h : x = y then Decidable.isTrue (by rw [h])
    else Decidable.isFalse (fun hh => h (by injection hh))

/-! ## Concrete fixtures used in witnesses and counterexamples -/

/-- A concrete checkpoint (fields in declaration order: timelines 1/1,
nextXid 1000, nextOid 100, nextMulti 7, nextMultiOffset 9, oldestXid 3,
oldestXidDB 5, oldestMulti 4, oldestMultiDB 6, commit-ts bounds 5/9,
rest 0). -/
def cpA : CheckPoint := ⟨1, 1, 1000, 100, 7, 9, 3, 5, 4, 6, 5, 9, 0⟩

/-- A record with the supported version, a 16 MiB segment size and a
stored checksum (0) that does not verify. -/
def cfA : ControlFileData := ⟨PG_CONTROL_VERSION, cpA, 16 * 1024 * 1024, 0, 0⟩

/-- The same record with an unsupported version tag. -/
def cfBadVersion : ControlFileData := ⟨0, cpA, 16 * 1024 * 1024, 0, 0⟩

/-- A second record, differing from `cfA` in `nextOid` and segment
size. -/
def cfB : ControlFileData := ⟨PG_CONTROL_VERSION, ⟨1, 1, 1000, 200, 7, 9, 3, 5, 4, 6, 5, 9, 0⟩, 1024 * 1024, 0, 0⟩

/-- `cfA` as a full-size on-disk image. -/
def imgA : FileImage := ⟨PG_CONTROL_FILE_SIZE, cfA⟩

/-- An output filesystem in which a record file already exists. -/
def fs0 : OutFS := ⟨false, false, Option.some (FileContent.image (update_controlfile cfB)), []⟩

/-- An output filesystem without a pre-existing record file. -/
def fs1 : OutFS := ⟨false, false, Option.none, []⟩

/-- An invocation overriding the next transaction id (5000) and the
epoch (2). -/
def rawA : RawOptions :=
  ⟨Option.none, Option.some 5000, Option.none, Option.none, Option.none,
   Option.some 2, Option.none, Option.none, Option.none⟩

/-- An invocation supplying the all-ones epoch override. -/
def rawEpochSentinel : RawOptions :=
  ⟨Option.none, Option.none, Option.none, Option.none, Option.none,
   Option.some UINT32_MAX, Option.none, Option.none, Option.none⟩

/-- An invocation supplying the all-ones multi-transaction-offset
override. -/
def rawMxoffSentinel : RawOptions :=
  ⟨Option.none, Option.none, Option.none, Option.some UINT32_MAX,
   Option.none, Option.none, Option.none, Option.none, Option.none⟩

/-- 24 hexadecimal characters followed by a non-hexadecimal one. -/
def badWalName : List Char := "000000010000000000000001z".toList

/-- Exactly 24 hexadecimal characters. -/
def goodWalName : List Char := "00000002000000000000000A".toList

/-- A WAL filename resolving to timeline 2, segment 3. -/
def fnameA : List Char := "000000020000000000000003".toList

/-! ## Arithmetic helper lemmas -/

/-- The packed 64-bit value built by `FullTransactionIdFromEpochAndXid`,
in arithmetic form. -/
theorem full_txid_eq (e x : Nat) :
    FullTransactionIdFromEpochAndXid e x = 2 ^ 32 * (e % 2 ^ 32) + x % 2 ^ 32 := by
  unfold FullTransactionIdFromEpochAndXid
  rw [Nat.shiftLeft_eq, Nat.mul_comm]
  exact (Nat.mul_add_lt_is_or (Nat.mod_lt _ (by norm_num)) _).symm

/-- The high half of a packed value is the epoch that was packed. -/
theorem epoch_from_full (e x : Nat) :
    EpochFromFullTransactionId (FullTransactionIdFromEpochAndXid e x) = e % 2 ^ 32 := by
  rw [full_txid_eq]
  unfold EpochFromFullTransactionId
  rw [Nat.shiftRight_eq_div_pow]
  rw [Nat.mul_add_div (by norm_num : 0 < 2 ^ 32)]
  rw [Nat.div_eq_of_lt (Nat.mod_lt _ (by norm_num)), Nat.add_zero,
      Nat.mod_mod_of_dvd _ dvd_rfl]

/-- The low half of a packed value is the xid that was packed. -/
theorem xid_from_full (e x : Nat) :
    XidFromFullTransactionId (FullTransactionIdFromEpochAndXid e x) = x % 2 ^ 32 := by
  rw [full_txid_eq]
  unfold XidFromFullTransactionId
  rw [Nat.mul_add_mod, Nat.mod_mod_of_dvd _ dvd_rfl]

/-- The extracted epoch is a 32-bit value. -/
theorem epoch_lt (x : Nat) : EpochFromFullTransactionId x < 2 ^ 32 :=
  Nat.mod_lt _ (by norm_num)

/-- The extracted xid is a 32-bit value. -/
theorem xid_lt (x : Nat) : XidFromFullTransactionId x < 2 ^ 32 :=
  Nat.mod_lt _ (by norm_num)

/-- A number in `[2 ^ i, 2 ^ (i + 1))` has bit `i` set. -/
theorem testBit_of_bounds {x i : Nat} (h1 : 2 ^ i ≤ x) (h2 : x < 2 ^ (i + 1)) :
    x.testBit i = true := by
  rw [Nat.testBit_to_div_mod]
  have hpos : 0 < 2 ^ i := Nat.two_pow_pos i
  have hlo : 1 ≤ x / 2 ^ i := (Nat.one_le_div_iff hpos).2 h1
  have hhi : x / 2 ^ i < 2 := by
    rw [Nat.div_lt_iff_lt_mul hpos]
    calc x < 2 ^ (i + 1) := h2
    _ = 2 * 2 ^ i := by rw [Nat.pow_succ, Nat.mul_comm]
  have hone : x / 2 ^ i = 1 := by omega
  simp [hone]

/-- A nonzero number annihilated by bitwise-and with its predecessor is a
power of two (soundness of the C `IsPowerOf2` test). -/
theorem pow2_of_land_pred {n : Nat} (hn : n ≠ 0) (h : n &&& (n - 1) = 0) :
    ∃ k, n = 2 ^ k := by
  have hs : 0 < n.size := Nat.size_pos.2 (Nat.pos_of_ne_zero hn)
  have hub : n < 2 ^ n.size := Nat.lt_size_self n
  have hlb : 2 ^ (n.size - 1) ≤ n := Nat.lt_size.1 (by omega)
  rcases Nat.lt_or_ge (2 ^ (n.size - 1)) n with hlt | hge
  · exfalso
    have his : n.size - 1 + 1 = n.size := by omega
    have hb1 : n.testBit (n.size - 1) = true :=
      testBit_of_bounds (Nat.le_of_lt hlt) (by rw [his]; exact hub)
    have hb2 : (n - 1).testBit (n.size - 1) = true :=
      testBit_of_bounds (by omega) (by rw [his]; omega)
    have hz := congrArg (fun m => m.testBit (n.size - 1)) h
    simp only [Nat.testBit_and, hb1, hb2, Bool.and_self, Nat.zero_testBit] at hz
    exact Bool.noConfusion hz
  · exact ⟨n.size - 1, Nat.le_antisymm hge hlb⟩

/-- A power of two passes the C `IsPowerOf2` bit test. -/
theorem land_pred_of_pow2 (k : Nat) : 2 ^ k &&& (2 ^ k - 1) = 0 := by
  rw [Nat.and_pow_two_sub_one_eq_mod, Nat.mod_self]

/-- `IsValidWalSegSize` is exactly "a power of two in
`[WalSegMinSize, WalSegMaxSize]`". -/
theorem isValidWalSegSize_iff (n : Nat) :
    IsValidWalSegSize n ↔
      (∃ k, n = 2 ^ k) ∧ WalSegMinSize ≤ n ∧ n ≤ WalSegMaxSize := by
  unfold IsValidWalSegSize IsPowerOf2
  constructor
  · rintro ⟨⟨hn, hland⟩, hlo, hhi⟩
    exact ⟨pow2_of_land_pred hn hland, hlo, hhi⟩
  · rintro ⟨⟨k, hk⟩, hlo, hhi⟩
    subst hk
    exact ⟨⟨Nat.pos_iff_ne_zero.1 (Nat.two_pow_pos k), land_pred_of_pow2 k⟩, hlo, hhi⟩

/-! ## Structural helper lemmas -/

/-- The CRC covers only the bytes before the `crc` field: overwriting the
stored `crc` does not change the computed checksum. -/
theorem comp_crc32c_update_crc (d : ControlFileData) (c : Nat) :
    comp_crc32c { d with crc := c } = comp_crc32c d := rfl

/-- Re-encoding ignores the stale `crc` field (it is recomputed). -/
theorem update_controlfile_crc_irrel (d : ControlFileData) (c : Nat) :
    update_controlfile { d with crc := c } = update_controlfile d := by
  cases d
  rfl

/-- The override pass neither reads nor writes the `crc` field. -/
theorem applyOverridesMain_crc (ov : Overrides) (tli : Nat)
    (cf : ControlFileData) (c : Nat) :
    applyOverridesMain ov tli { cf with crc := c } =
      { applyOverridesMain ov tli cf with crc := c } := by
  cases cf
  rfl

/-! ## Claim theorems -/

/-- C8: for every record and every timeline resolved from a requested WAL
filename, both `ThisTimeLineID` and `PrevTimeLineID` are set to the
resolved timeline when it is strictly greater than the record's current
`ThisTimeLineID`, and otherwise the record is entirely unchanged; the
operation is total (it never fails). -/
theorem c8_timeline_bump (fname : List Char) (walSegSz : Nat) (cp : CheckPoint) :
    ((XLogFromFileName fname walSegSz).fst > cp.ThisTimeLineID →
      bump_timeline_action (XLogFromFileName fname walSegSz).fst cp =
        { cp with ThisTimeLineID := (XLogFromFileName fname walSegSz).fst,
                  PrevTimeLineID := (XLogFromFileName fname walSegSz).fst }) ∧
    (¬ (XLogFromFileName fname walSegSz).fst > cp.ThisTimeLineID →
      bump_timeline_action (XLogFromFileName fname walSegSz).fst cp = cp) := by
  unfold bump_timeline_action
  constructor
  · intro h
    rw [if_pos h]
  · intro h
    rw [if_neg h]

/-- C8 witness: timeline 2 resolved from `fnameA` exceeds `cpA`'s current
timeline 1, so both timeline fields are set to 2. -/
theorem c8_timeline_bump_witness :
    bump_timeline_action (XLogFromFileName fnameA (16 * 1024 * 1024)).fst cpA =
      { cpA with ThisTimeLineID := (XLogFromFileName fnameA (16 * 1024 * 1024)).fst,
                 PrevTimeLineID := (XLogFromFileName fnameA (16 * 1024 * 1024)).fst } :=
  (c8_timeline_bump fnameA (16 * 1024 * 1024) cpA).1 (by decide)

/-- C3: for every base record, epoch value `E` (31-bit-range or not, any
uint32 other than the all-ones sentinel) and normal transaction id `X`,
applying set-epoch then set-xid, or set-xid then set-epoch, yields a
`nextXid` whose high 32 bits are `E` and whose low 32 bits are `X`; and
each setter preserves the other half of the packed value. -/
theorem c3_epoch_xid_independence (cp : CheckPoint) (E X : Nat)
    (hE32 : E < 2 ^ 32) (hEs : E ≠ UINT32_MAX)
    (hXn : TransactionIdIsNormal X) (hX32 : X < 2 ^ 32) :
    EpochFromFullTransactionId (set_next_xid_action X (set_epoch_action E cp)).nextXid = E ∧
    XidFromFullTransactionId (set_next_xid_action X (set_epoch_action E cp)).nextXid = X ∧
    EpochFromFullTransactionId (set_epoch_action E (set_next_xid_action X cp)).nextXid = E ∧
    XidFromFullTransactionId (set_epoch_action E (set_next_xid_action X cp)).nextXid = X ∧
    XidFromFullTransactionId (set_epoch_action E cp).nextXid
        = XidFromFullTransactionId cp.nextXid ∧
    EpochFromFullTransactionId (set_next_xid_action X cp).nextXid
        = EpochFromFullTransactionId cp.nextXid := by
  have hE := Nat.mod_eq_of_lt hE32
  have hX := Nat.mod_eq_of_lt hX32
  unfold set_next_xid_action set_epoch_action
  simp [epoch_from_full, xid_from_full, hE, hX,
    Nat.mod_eq_of_lt (epoch_lt cp.nextXid), Nat.mod_eq_of_lt (xid_lt cp.nextXid)]
  exact ⟨hE32, hX32, hE32, hX32, xid_lt cp.nextXid, epoch_lt cp.nextXid⟩

/-- C3 witness: epoch 2 and xid 5000 on the concrete checkpoint, both
orders. -/
theorem c3_epoch_xid_independence_witness :
    EpochFromFullTransactionId (set_next_xid_action 5000 (set_epoch_action 2 cpA)).nextXid = 2 ∧
    XidFromFullTransactionId (set_next_xid_action 5000 (set_epoch_action 2 cpA)).nextXid = 5000 ∧
    EpochFromFullTransactionId (set_epoch_action 2 (set_next_xid_action 5000 cpA)).nextXid = 2 ∧
    XidFromFullTransactionId (set_epoch_action 2 (set_next_xid_action 5000 cpA)).nextXid = 5000 ∧
    XidFromFullTransactionId (set_epoch_action 2 cpA).nextXid
        = XidFromFullTransactionId cpA.nextXid ∧
    EpochFromFullTransactionId (set_next_xid_action 5000 cpA).nextXid
        = EpochFromFullTransactionId cpA.nextXid :=
  c3_epoch_xid_independence cpA 2 5000 (by decide) (by decide) (by decide) (by decide)

/-- C4: with both values nonzero, the multi-transaction setter stores
`next` into `nextMulti`; stores `oldest + FirstMultiXactId` into
`oldestMulti` when `oldest` is below `FirstMultiXactId` and `oldest`
unchanged when at or above it; and resets `oldestMultiDB` to
`InvalidOid`; a zero for either value is rejected with
`InvalidMultiTransactionId`. -/
theorem c4_multixact_setter (next oldest : Nat) (cp : CheckPoint) :
    (next ≠ 0 → oldest ≠ 0 →
      (set_multixact_action next oldest cp).nextMulti = next ∧
      (oldest < FirstMultiXactId →
        (set_multixact_action next oldest cp).oldestMulti = oldest + FirstMultiXactId) ∧
      (FirstMultiXactId ≤ oldest →
        (set_multixact_action next oldest cp).oldestMulti = oldest) ∧
      (set_multixact_action next oldest cp).oldestMultiDB = InvalidOid) ∧
    ((next = 0 ∨ oldest = 0) →
      parse_multixact_option next oldest = Except.error OptError.InvalidMultiTransactionId) := by
  constructor
  · intro hn ho
    have hge : ¬ (oldest < FirstMultiXactId) := by
      unfold FirstMultiXactId
      omega
    refine ⟨?_, fun hlt => absurd hlt hge, fun _ => ?_, ?_⟩ <;>
      simp [set_multixact_action, hge]
  · intro h
    unfold parse_multixact_option
    rcases h with h | h
    · rw [if_pos h]
    · by_cases hn : next = 0
      · rw [if_pos hn]
      · rw [if_neg hn, if_pos h]

/-- C4 witness: next 7 and oldest 5 on the concrete checkpoint, plus the
rejection of a zero oldest value. -/
theorem c4_multixact_setter_witness :
    ((set_multixact_action 7 5 cpA).nextMulti = 7 ∧
      (5 < FirstMultiXactId →
        (set_multixact_action 7 5 cpA).oldestMulti = 5 + FirstMultiXactId) ∧
      (FirstMultiXactId ≤ 5 → (set_multixact_action 7 5 cpA).oldestMulti = 5) ∧
      (set_multixact_action 7 5 cpA).oldestMultiDB = InvalidOid) ∧
    parse_multixact_option 7 0 = Except.error OptError.InvalidMultiTransactionId :=
  ⟨(c4_multixact_setter 7 5 cpA).1 (by decide) (by decide),
   (c4_multixact_setter 7 0 cpA).2 (Or.inr rfl)⟩

/-- C6 counterexample: the pair (0, 100) passes the setter's precondition
(each value is 0 or a normal id), yet the oldest bound of the concrete
record (5) is not replaced by the supplied value 0 — a supplied 0 leaves
the bound unchanged, contradicting "replaces the record's respective
bound with the supplied value". -/
theorem c6_commit_ts_counterexample :
    parse_commit_ts_option 0 100 = Except.ok (0, 100) ∧
    cpA.oldestCommitTsXid = 5 ∧
    (set_commit_ts_action 0 100 cpA).oldestCommitTsXid = 5 := by decide

/-- C6 amended: for every pair (oldest, newest) with each value 0 or a
normal transaction id, validation succeeds, and the setter replaces each
bound whose supplied value is nonzero with that value — each bound
independently of the other — while a supplied 0 leaves the corresponding
bound unchanged ("zero means no change"); a value that is neither 0 nor
a normal id is rejected with `InvalidTransactionId`. -/
theorem c6_commit_ts_setter (oldest newest : Nat) (cp : CheckPoint) :
    ((oldest = 0 ∨ TransactionIdIsNormal oldest) →
     (newest = 0 ∨ TransactionIdIsNormal newest) →
      parse_commit_ts_option oldest newest = Except.ok (oldest, newest)) ∧
    (oldest ≠ 0 → (set_commit_ts_action oldest newest cp).oldestCommitTsXid = oldest) ∧
    (oldest = 0 →
      (set_commit_ts_action oldest newest cp).oldestCommitTsXid = cp.oldestCommitTsXid) ∧
    (newest ≠ 0 → (set_commit_ts_action oldest newest cp).newestCommitTsXid = newest) ∧
    (newest = 0 →
      (set_commit_ts_action oldest newest cp).newestCommitTsXid = cp.newestCommitTsXid) ∧
    (¬ (oldest = 0 ∨ TransactionIdIsNormal oldest) →
      parse_commit_ts_option oldest newest = Except.error OptError.InvalidTransactionId) ∧
    (¬ (newest = 0 ∨ TransactionIdIsNormal newest) →
      parse_commit_ts_option oldest newest = Except.error OptError.InvalidTransactionId) := by
  unfold TransactionIdIsNormal FirstNormalTransactionId at *
  refine ⟨?_, ?_, ?_, ?_, ?_, ?_, ?_⟩
  · intro ho hn
    unfold parse_commit_ts_option InvalidTransactionId FirstNormalTransactionId
    rw [if_neg (by omega), if_neg (by omega)]
  · intro ho
    by_cases hn : newest = 0 <;> simp [set_commit_ts_action, ho, hn]
  · intro ho
    by_cases hn : newest = 0 <;> simp [set_commit_ts_action, ho, hn]
  · intro hn
    by_cases ho : oldest = 0 <;> simp [set_commit_ts_action, ho, hn]
  · intro hn
    by_cases ho : oldest = 0 <;> simp [set_commit_ts_action, ho, hn]
  · intro ho
    unfold parse_commit_ts_option InvalidTransactionId FirstNormalTransactionId
    rw [if_pos (by omega)]
  · intro hn
    unfold parse_commit_ts_option InvalidTransactionId FirstNormalTransactionId
    by_cases ho : oldest < 3 ∧ oldest ≠ 0
    · rw [if_pos ho]
    · rw [if_neg ho, if_pos (by omega)]

/-- C6 witness: pair (5, 0) on the concrete record — the oldest bound is
replaced by 5, the newest bound (supplied 0) stays 9 — and the rejection
of the non-normal value 2. -/
theorem c6_commit_ts_setter_witness :
    parse_commit_ts_option 5 0 = Except.ok (5, 0) ∧
    (set_commit_ts_action 5 0 cpA).oldestCommitTsXid = 5 ∧
    (set_commit_ts_action 5 0 cpA).newestCommitTsXid = cpA.newestCommitTsXid ∧
    parse_commit_ts_option 2 7 = Except.error OptError.InvalidTransactionId :=
  ⟨(c6_commit_ts_setter 5 0 cpA).1 (Or.inr (by decide)) (Or.inl rfl),
   (c6_commit_ts_setter 5 0 cpA).2.1 (by decide),
   (c6_commit_ts_setter 5 0 cpA).2.2.2.2.1 rfl,
   (c6_commit_ts_setter 2 7 cpA).2.2.2.2.2.1 (by decide)⟩

/-- C5 counterexample: a record file already exists at the output path
(holding the encoding of `cfB`), yet materializing `cfA` replaces its
content with the encoding of `cfA` without failing — the pre-existing
content is silently overwritten, and the payload is not written to a
freshly created file. -/
theorem c5_materialize_counterexample :
    fs0.ctl = Option.some (FileContent.image (update_controlfile cfB)) ∧
    (materialize fs0 cfA).ctl =
      Option.some (FileContent.image (update_controlfile cfA)) ∧
    update_controlfile cfA ≠ update_controlfile cfB := by decide

/-- C5 amended: materialize ensures the output directory and its `global`
subdirectory exist, ensures the record file exists — creating it with
exclusive-create semantics only when it is absent, and treating
pre-existence as success — and then writes the encoded payload exactly
once (one appended write), leaving the file's content equal to the
encoded image and replacing any pre-existing content. -/
theorem c5_materialize (fs : OutFS) (d : ControlFileData) :
    (materialize fs d).ctl =
      Option.some (FileContent.image (update_controlfile d)) ∧
    (materialize fs d).writes = fs.writes ++ [update_controlfile d] ∧
    (materialize fs d).dirOut = true ∧
    (materialize fs d).globalDir = true ∧
    (fs.ctl = Option.none →
      (make_datadir_out_if_not_exists fs).ctl = Option.some FileContent.empty) := by
  unfold materialize write_controlfile make_datadir_out_if_not_exists
  rcases h : fs.ctl with _ | c <;> simp [h]

/-- C5 witness: materializing into an empty filesystem creates the file
and writes once. -/
theorem c5_materialize_witness :
    (materialize fs1 cfA).ctl =
      Option.some (FileContent.image (update_controlfile cfA)) ∧
    (materialize fs1 cfA).writes = fs1.writes ++ [update_controlfile cfA] ∧
    (materialize fs1 cfA).dirOut = true ∧
    (materialize fs1 cfA).globalDir = true ∧
    (make_datadir_out_if_not_exists fs1).ctl = Option.some FileContent.empty :=
  ⟨(c5_materialize fs1 cfA).1, (c5_materialize fs1 cfA).2.1,
   (c5_materialize fs1 cfA).2.2.1, (c5_materialize fs1 cfA).2.2.2.1,
   (c5_materialize fs1 cfA).2.2.2.2 rfl⟩

/-- C1 counterexample: two concrete records with valid segment sizes
("all other fields arbitrary"): for `cfBadVersion` (version field not the
supported constant) decoding the encoding fails outright, and for `cfA`
(stored checksum 0, which does not verify) the decoded record differs
from the original in its checksum field — so decode∘encode is not the
identity on every field for arbitrary records with valid segment
sizes. -/
theorem c1_roundtrip_counterexample :
    IsValidWalSegSize cfBadVersion.xlog_seg_size ∧
    read_controlfile (update_controlfile cfBadVersion) =
      Except.error DecodeError.UnsupportedOrCorrupt ∧
    IsValidWalSegSize cfA.xlog_seg_size ∧
    read_controlfile (update_controlfile cfA) =
      Except.ok ⟨{ cfA with crc := comp_crc32c cfA }, false⟩ ∧
    { cfA with crc := comp_crc32c cfA } ≠ cfA := by decide

/-- C1 amended: for every record with a valid segment size whose version
field equals the supported constant (all other fields arbitrary),
decoding the encoding succeeds with the checksum verifying (`guessed =
false`, even when the original stored checksum did not verify), and
yields a record equal to the original in every field except the stored
checksum, which now holds the freshly computed value — so the round trip
is the identity exactly when the original checksum was already
correct. -/
theorem c1_roundtrip (r : ControlFileData)
    (hseg : IsValidWalSegSize r.xlog_seg_size)
    (hver : r.pg_control_version = PG_CONTROL_VERSION) :
    read_controlfile (update_controlfile r) =
      Except.ok ⟨{ r with crc := comp_crc32c r }, false⟩ ∧
    ({ r with crc := comp_crc32c r } = r ↔ r.crc = comp_crc32c r) := by
  constructor
  · unfold read_controlfile update_controlfile
    rw [if_pos ?hc]
    case hc =>
      refine ⟨?_, ?_⟩
      · show sizeofControlFileData ≤ PG_CONTROL_FILE_SIZE
        decide
      · show ({ r with crc := comp_crc32c r } : ControlFileData).pg_control_version
            = PG_CONTROL_VERSION
        simpa using hver
    rw [if_pos ?hs]
    case hs =>
      show IsValidWalSegSize ({ r with crc := comp_crc32c r } : ControlFileData).xlog_seg_size
      simpa using hseg
    simp [comp_crc32c_update_crc]
  · constructor
    · intro h
      exact (congrArg ControlFileData.crc h).symm
    · intro h
      rw [← h]

/-- C1 witness: the concrete record `cfA` (valid 16 MiB segment size,
supported version, non-verifying stored checksum 0). -/
theorem c1_roundtrip_witness :
    read_controlfile (update_controlfile cfA) =
      Except.ok ⟨{ cfA with crc := comp_crc32c cfA }, false⟩ ∧
    ({ cfA with crc := comp_crc32c cfA } = cfA ↔ cfA.crc = comp_crc32c cfA) :=
  c1_roundtrip cfA (by decide) (by decide)

/-- C2: decode fails exactly when the input is shorter than the fixed
record size, or its version field differs from the supported constant,
or its stored segment size is not a power of two in
`[WalSegMinSize, WalSegMaxSize]`; and whenever those three checks pass,
a checksum mismatch alone never causes failure — decode succeeds and
merely sets the `guessed` ("unverified", caller-warned) flag exactly on
mismatch. -/
theorem c2_decode_failure (img : FileImage) :
    ((∃ e, read_controlfile img = Except.error e) ↔
      (img.len < sizeofControlFileData ∨
       img.data.pg_control_version ≠ PG_CONTROL_VERSION ∨
       ¬ ((∃ k, img.data.xlog_seg_size = 2 ^ k) ∧
          WalSegMinSize ≤ img.data.xlog_seg_size ∧
          img.data.xlog_seg_size ≤ WalSegMaxSize))) ∧
    (sizeofControlFileData ≤ img.len →
     img.data.pg_control_version = PG_CONTROL_VERSION →
     IsValidWalSegSize img.data.xlog_seg_size →
     read_controlfile img =
       Except.ok ⟨img.data, decide (comp_crc32c img.data ≠ img.data.crc)⟩) := by
  constructor
  · constructor
    · rintro ⟨e, he⟩
      simp only [read_controlfile] at he
      by_cases h1 : sizeofControlFileData ≤ img.len ∧
          img.data.pg_control_version = PG_CONTROL_VERSION
      · rw [if_pos h1] at he
        by_cases h2 : IsValidWalSegSize img.data.xlog_seg_size
        · rw [if_pos h2] at he
          exact absurd he (by simp)
        · right; right
          intro hA
          exact h2 ((isValidWalSegSize_iff _).2 hA)
      · by_cases hl : sizeofControlFileData ≤ img.len
        · right; left
          intro hv
          exact h1 ⟨hl, hv⟩
        · left
          omega
    · intro h
      simp only [read_controlfile]
      by_cases h1 : sizeofControlFileData ≤ img.len ∧
          img.data.pg_control_version = PG_CONTROL_VERSION
      · rw [if_pos h1]
        by_cases h2 : IsValidWalSegSize img.data.xlog_seg_size
        · exfalso
          rcases h with h | h | h
          · omega
          · exact h h1.2
          · exact h ((isValidWalSegSize_iff _).1 h2)
        · rw [if_neg h2]
          exact ⟨_, rfl⟩
      · rw [if_neg h1]
        exact ⟨_, rfl⟩
  · intro ha hb hc
    simp only [read_controlfile]
    rw [if_pos ⟨ha, hb⟩, if_pos hc]

/-- C2 witness: the concrete image `imgA` passes the length, version and
segment-size checks and decodes successfully with the `guessed` flag
reflecting its (failing) checksum comparison. -/
theorem c2_decode_failure_witness :
    read_controlfile imgA =
      Except.ok ⟨imgA.data, decide (comp_crc32c imgA.data ≠ imgA.data.crc)⟩ :=
  (c2_decode_failure imgA).2 (by decide) (by decide) (by decide)

/-- C `strspn` computes the length of the longest initial run of
characters from the accept set: `strspn accept l = n` iff `l` splits as
`pre ++ suf` with `pre` of length `n` drawn from the accept set and `suf`
empty or starting with a character outside it. -/
theorem strspn_spec (accept : List Char) :
    ∀ (l : List Char) (n : Nat),
      strspn accept l = n ↔
        ∃ pre suf, l = pre ++ suf ∧ pre.length = n ∧
          (∀ c ∈ pre, c ∈ accept) ∧
          (suf = [] ∨ ∃ c cs, suf = c :: cs ∧ c ∉ accept) := by
  intro l
  induction l with
  | nil =>
    intro n
    constructor
    · intro h
      have h0 : (0 : Nat) = n := by simpa [strspn] using h
      exact ⟨[], [], rfl, by simp [← h0], by simp, Or.inl rfl⟩
    · rintro ⟨pre, suf, heq, hlen, hmem, hlast⟩
      have hpre : pre = [] := by
        cases pre with
        | nil => rfl
        | cons a as => exact absurd heq (by simp)
      subst hpre
      simp [strspn, ← hlen]
  | cons c cs ih =>
    intro n
    by_cases hc : c ∈ accept
    · rw [show strspn accept (c :: cs) = 1 + strspn accept cs from by
        simp [strspn, hc]]
      cases n with
      | zero =>
        constructor
        · intro h
          omega
        · rintro ⟨pre, suf, heq, hlen, hmem, hlast⟩
          exfalso
          have hpre : pre = [] := List.length_eq_zero.1 hlen
          subst hpre
          simp only [List.nil_append] at heq
          rcases hlast with h | ⟨d, ds, hds, hd⟩
          · rw [h] at heq
            exact List.noConfusion heq
          · rw [hds] at heq
            injection heq with h1 h2
            exact hd (h1 ▸ hc)
      | succ m =>
        have hone : (1 + strspn accept cs = m + 1) ↔ strspn accept cs = m := by
          omega
        rw [hone, ih m]
        constructor
        · rintro ⟨pre, suf, heq, hlen, hmem, hlast⟩
          refine ⟨c :: pre, suf, by simp [heq], by simp [hlen], ?_, hlast⟩
          intro x hx
          rcases List.mem_cons.1 hx with hx | hx
          · exact hx ▸ hc
          · exact hmem x hx
        · rintro ⟨pre, suf, heq, hlen, hmem, hlast⟩
          cases pre with
          | nil => exact absurd hlen (by simp)
          | cons a as =>
            simp only [List.cons_append] at heq
            injection heq with h1 h2
            refine ⟨as, suf, h2, ?_, ?_, hlast⟩
            · simpa using hlen
            · intro x hx
              exact hmem x (List.mem_cons_of_mem a hx)
    · rw [show strspn accept (c :: cs) = 0 from by simp [strspn, hc]]
      constructor
      · intro h
        exact ⟨[], c :: cs, rfl, by simp [← h], by simp,
          Or.inr ⟨c, cs, rfl, hc⟩⟩
      · rintro ⟨pre, suf, heq, hlen, hmem, hlast⟩
        cases pre with
        | nil => simpa using hlen
        | cons a as =>
          exfalso
          simp only [List.cons_append] at heq
          injection heq with h1 h2
          exact hc (h1 ▸ hmem a (List.mem_cons_self a as))

/-- C9 counterexample: `badWalName` consists of 24 hexadecimal characters
followed by the non-hexadecimal character z — its length is not
`XLOG_FNAME_LEN` and it contains a non-hexadecimal character, so the
claim requires rejection — yet the `strspn`-based check accepts it. -/
theorem c9_walname_counterexample :
    parse_walfile_option badWalName = Except.ok badWalName ∧
    badWalName.length ≠ XLOG_FNAME_LEN ∧
    'z' ∈ badWalName ∧ 'z' ∉ xlog_fname_chars := by decide

/-- C9 amended: the check accepts a filename iff its longest initial run
of hexadecimal characters has length exactly `XLOG_FNAME_LEN` — i.e. the
first 24 characters exist and are hexadecimal, and the 25th character,
if any, is not (trailing garbage after a non-hexadecimal character is
accepted); every other input is rejected with `InvalidFormat`. -/
theorem c9_walname (fname : List Char) :
    parse_walfile_option fname = Except.ok fname ↔
      ∃ pre suf, fname = pre ++ suf ∧ pre.length = XLOG_FNAME_LEN ∧
        (∀ c ∈ pre, c ∈ xlog_fname_chars) ∧
        (suf = [] ∨ ∃ c cs, suf = c :: cs ∧ c ∉ xlog_fname_chars) := by
  unfold parse_walfile_option
  by_cases h : strspn xlog_fname_chars fname = XLOG_FNAME_LEN
  · rw [if_pos h]
    constructor
    · intro _
      exact (strspn_spec xlog_fname_chars fname XLOG_FNAME_LEN).1 h
    · intro _
      rfl
  · rw [if_neg h]
    constructor
    · intro hh
      exact absurd hh (by simp)
    · intro hR
      exact absurd ((strspn_spec xlog_fname_chars fname XLOG_FNAME_LEN).2 hR) h

/-- C9 witness: a filename of exactly 24 hexadecimal characters is
accepted, and the characterization exhibits its decomposition. -/
theorem c9_walname_witness :
    ∃ pre suf, goodWalName = pre ++ suf ∧ pre.length = XLOG_FNAME_LEN ∧
      (∀ c ∈ pre, c ∈ xlog_fname_chars) ∧
      (suf = [] ∨ ∃ c cs, suf = c :: cs ∧ c ∉ xlog_fname_chars) :=
  (c9_walname goodWalName).1 (by decide)

/-- A supplied all-ones epoch or multi-transaction-offset override makes
the option loop fail (with some validation error — which one depends only
on whether an earlier option was also invalid). -/
theorem parseOptions_sentinel_error (raw : RawOptions)
    (h : raw.epoch = Option.some UINT32_MAX ∨
         raw.mxoff = Option.some UINT32_MAX) :
    ∃ e, parseOptions raw = Except.error e := by
  rcases h with he | hm
  · cases h1 : parseOpt raw.oid 0 parse_oid_option with
    | error e => exact ⟨e, by unfold parseOptions; rw [h1]⟩
    | ok oid =>
      cases h2 : parseOpt raw.xid 0 parse_xid_option with
      | error e => exact ⟨e, by unfold parseOptions; rw [h1, h2]⟩
      | ok xid =>
        cases h3 : parseOpt raw.mxid (0, 0)
            (fun p => parse_multixact_option p.1 p.2) with
        | error e => exact ⟨e, by unfold parseOptions; rw [h1, h2, h3]⟩
        | ok mxids =>
          cases h4 : parseOpt raw.mxoff UINT32_MAX parse_mxoff_option with
          | error e => exact ⟨e, by unfold parseOptions; rw [h1, h2, h3, h4]⟩
          | ok mxoff =>
            cases h5 : parseOpt raw.commit_ts (0, 0)
                (fun p => parse_commit_ts_option p.1 p.2) with
            | error e =>
              exact ⟨e, by unfold parseOptions; rw [h1, h2, h3, h4, h5]⟩
            | ok cts =>
              refine ⟨OptError.InvalidEpoch, ?_⟩
              unfold parseOptions
              rw [h1, h2, h3, h4, h5, he]
              rfl
  · cases h1 : parseOpt raw.oid 0 parse_oid_option with
    | error e => exact ⟨e, by unfold parseOptions; rw [h1]⟩
    | ok oid =>
      cases h2 : parseOpt raw.xid 0 parse_xid_option with
      | error e => exact ⟨e, by unfold parseOptions; rw [h1, h2]⟩
      | ok xid =>
        cases h3 : parseOpt raw.mxid (0, 0)
            (fun p => parse_multixact_option p.1 p.2) with
        | error e => exact ⟨e, by unfold parseOptions; rw [h1, h2, h3]⟩
        | ok mxids =>
          refine ⟨OptError.InvalidOffset, ?_⟩
          unfold parseOptions
          rw [h1, h2, h3, hm]
          rfl

/-- C7: every invocation supplying the all-ones value as the epoch
override or as the multi-transaction-offset override is rejected before
the control file is read — `runMain` produces a validation error and no
output record, so the working record stays unmodified and neither field
is ever written as its all-ones sentinel — and the per-option checks
report the corresponding errors (`InvalidEpoch`, `InvalidOffset`). -/
theorem c7_sentinel_rejection (raw : RawOptions) (img : FileImage) :
    ((raw.epoch = Option.some UINT32_MAX ∨
      raw.mxoff = Option.some UINT32_MAX) →
      ∃ e, runMain raw img = Except.error (MainError.optionError e)) ∧
    parse_epoch_option UINT32_MAX = Except.error OptError.InvalidEpoch ∧
    parse_mxoff_option UINT32_MAX = Except.error OptError.InvalidOffset := by
  refine ⟨?_, by simp [parse_epoch_option], by simp [parse_mxoff_option]⟩
  intro h
  obtain ⟨e, he⟩ := parseOptions_sentinel_error raw h
  exact ⟨e, by simp [runMain, he]⟩

/-- C7 witness: the concrete all-ones invocations are both rejected with
no output, and the per-option checks report `InvalidEpoch` and
`InvalidOffset`. -/
theorem c7_sentinel_rejection_witness :
    (∃ e, runMain rawEpochSentinel imgA = Except.error (MainError.optionError e)) ∧
    (∃ e, runMain rawMxoffSentinel imgA = Except.error (MainError.optionError e)) ∧
    parse_epoch_option UINT32_MAX = Except.error OptError.InvalidEpoch ∧
    parse_mxoff_option UINT32_MAX = Except.error OptError.InvalidOffset :=
  ⟨(c7_sentinel_rejection rawEpochSentinel imgA).1 (Or.inl rfl),
   (c7_sentinel_rejection rawMxoffSentinel imgA).1 (Or.inr rfl),
   (c7_sentinel_rejection rawEpochSentinel imgA).2.1,
   (c7_sentinel_rejection rawEpochSentinel imgA).2.2⟩

/-- C10: two input byte sequences identical except in the stored checksum
field (same length, same pre-checksum bytes), run with the same
overrides, produce identical outcomes and identical output records: the
`guessed` flag set on checksum mismatch influences only the warning (the
second component), never any field of the decoded record that reaches
the output, whose checksum is recomputed from the pre-checksum bytes. -/
theorem c10_checksum_noninterference (raw : RawOptions)
    (img1 img2 : FileImage) (hlen : img1.len = img2.len)
    (hdata : img1.data = { img2.data with crc := img1.data.crc }) :
    Except.map Prod.fst (runMain raw img1) =
      Except.map Prod.fst (runMain raw img2) := by
  obtain ⟨l1, d1⟩ := img1
  obtain ⟨l2, d2⟩ := img2
  obtain ⟨v1, cp1, sz1, rs1, c1⟩ := d1
  obtain ⟨v2, cp2, sz2, rs2, c2⟩ := d2
  simp only [FileImage.mk.injEq] at hlen hdata ⊢
  subst hlen
  injection hdata with hv hcp hsz hrs hcrc
  subst hv
  subst hcp
  subst hsz
  subst hrs
  unfold runMain
  cases hp : parseOptions raw with
  | error e => rfl
  | ok ov =>
    simp only [read_controlfile]
    by_cases hc : sizeofControlFileData ≤ l1 ∧ v1 = PG_CONTROL_VERSION
    · rw [if_pos hc, if_pos hc]
      by_cases hs : IsValidWalSegSize sz1
      · rw [if_pos hs, if_pos hs]
        simp [update_controlfile, applyOverridesMain, comp_crc32c, Except.map]
      · rw [if_neg hs, if_neg hs]
    · rw [if_neg hc, if_neg hc]

/-- C10 witness: the image with a wrong stored checksum and the image
with the correct one, under the xid/epoch-overriding invocation, give
the same output record. -/
theorem c10_checksum_noninterference_witness :
    Except.map Prod.fst (runMain rawA ⟨PG_CONTROL_FILE_SIZE, cfA⟩) =
      Except.map Prod.fst
        (runMain rawA ⟨PG_CONTROL_FILE_SIZE, { cfA with crc := comp_crc32c cfA }⟩) :=
  c10_checksum_noninterference rawA ⟨PG_CONTROL_FILE_SIZE, cfA⟩
    ⟨PG_CONTROL_FILE_SIZE, { cfA with crc := comp_crc32c cfA }⟩ rfl (by decide)

end PgControlEditor
